import Mathlib

/-!
# S6a client API (`lte/gateway/c/oai/lib/s6a_proxy/s6a_client_api.cpp`)

A shallow embedding of the three request entry points (`s6a_purge_ue`,
`s6a_authentication_info_req`, `s6a_update_location_req`) and of the completion
handlers that turn a remote answer into an ITTI message.

Conventions of the embedding.

* The effects of the file (messages handed to `itti_send_msg_to_task`, lines written
  to `std::cout`, calls made on `magma::S6aClient`) are recorded, in order, in an
  explicit `World` that every function threads through.
* A lambda handed to the client is recorded by its capture list (`Completion`);
  `Completion.invoke` is the body of the lambda.
* A C string is the list of its characters; a buffer is the list of the characters it
  holds. `strncpy` writes exactly `n` characters starting at the destination, so a
  result longer than the destination buffer records a write past the end of it.
* Everything declared in headers that are not part of this file (the protocol
  threshold, the field converters, the feature flag, the freshly allocated message
  memory) is a parameter. A field converter fills the kind-specific fields of a message
  and is taken to write no other field.
* A pointer argument is an `Option`, `none` being the null pointer.
-/

namespace S6aClientApi

/-! ## Collaborators declared outside this file -/

/-- The value of `grpc::Status`: a status code and a message. -/
structure Status where
  error_code : Nat
  error_message : String
  deriving DecidableEq, Repr

/-- The test `status.ok()`: the code is `grpc::StatusCode::OK`, which is zero. -/
def Status.ok (status : Status) : Bool :=
  status.error_code == 0

/-- A remote answer (`feg::AuthenticationInformationAnswer`, `feg::UpdateLocationAnswer`,
`feg::PurgeUEAnswer`): the protocol error code and the rest of the answer. -/
structure Answer (β : Type) where
  error_code : Int
  body : β
  deriving DecidableEq, Repr

/-- Task identifiers used by this file. -/
inductive task_id_t where
  | TASK_S6A
  | TASK_NAS_MME
  | TASK_MME_APP
  deriving DecidableEq, Repr

/-- Message identifiers used by this file. -/
inductive MessagesIds where
  | S6A_AUTH_INFO_ANS
  | S6A_UPDATE_LOCATION_ANS
  deriving DecidableEq, Repr

/-- Task instances used by this file. -/
inductive instance_t where
  | INSTANCE_DEFAULT
  deriving DecidableEq, Repr

/-- Base result codes used by this file. -/
inductive s6a_base_result_t where
  | DIAMETER_SUCCESS
  | DIAMETER_UNABLE_TO_COMPLY
  deriving DecidableEq, Repr

/-- The tagged union `s6a_result_t`: `present` selects the member of `choice`.
`base` is `present = S6A_RESULT_BASE`, `experimental` is
`present = S6A_RESULT_EXPERIMENTAL`; the experimental member holds the numeric value
of the protocol error code it was cast from. -/
inductive s6a_result_t where
  | base (choice : s6a_base_result_t)
  | experimental (choice : Int)
  deriving DecidableEq, Repr

/-- The payload `s6a_auth_info_ans_t`: identity buffer, identity length, result, and
the kind-specific answer fields (the authentication vectors). -/
structure s6a_auth_info_ans_t (κ : Type) where
  imsi : List Char
  imsi_length : Nat
  result : s6a_result_t
  auth_info : κ
  deriving DecidableEq, Repr

/-- The payload `s6a_update_location_ans_t`: identity buffer, identity length, result,
and the kind-specific answer fields (the subscription data). -/
structure s6a_update_location_ans_t (κ : Type) where
  imsi : List Char
  imsi_length : Nat
  result : s6a_result_t
  subscription_data : κ
  deriving DecidableEq, Repr

/-- The member of the union `ittiMsg` that a message carries. -/
inductive ittiMsg_t (κa κu : Type) where
  | s6a_auth_info_ans (m : s6a_auth_info_ans_t κa)
  | s6a_update_location_ans (m : s6a_update_location_ans_t κu)
  deriving DecidableEq, Repr

/-- An ITTI message: header (origin task, message identifier) and payload. -/
structure MessageDef (κa κu : Type) where
  originTaskId : task_id_t
  messageId : MessagesIds
  ittiMsg : ittiMsg_t κa κu
  deriving DecidableEq, Repr

/-- The request `s6a_auth_info_req_t`, as far as this file reads it. -/
structure s6a_auth_info_req_t where
  imsi : List Char
  imsi_length : Nat
  deriving DecidableEq, Repr

/-- The request `s6a_update_location_req_t`, as far as this file reads it. -/
structure s6a_update_location_req_t where
  imsi : List Char
  imsi_length : Nat
  deriving DecidableEq, Repr

/-! ## Recorded effects -/

/-- Severity tag printed in brackets at the start of a line. -/
inductive LogLevel where
  | INFO
  | ERROR
  | DEBUG
  deriving DecidableEq, Repr

/-- One line written to `std::cout`: the bracketed tag and the text after it. -/
structure LogLine where
  level : LogLevel
  text : String
  deriving DecidableEq, Repr

/-- The capture list of a completion lambda. -/
inductive Completion where
  | purge_ue (imsiStr : String)
  | authentication_info (imsiStr : String) (imsi_len : Nat)
  | update_location (imsiStr : String) (imsi_len : Nat)
  deriving DecidableEq, Repr

/-- One call made on `magma::S6aClient`: the argument and the completion lambda. -/
inductive RemoteCall where
  | purge_ue (imsi : List Char) (callback : Completion)
  | authentication_info_req (air : s6a_auth_info_req_t) (callback : Completion)
  | update_location_request (ulr : s6a_update_location_req_t) (callback : Completion)
  deriving DecidableEq, Repr

/-- Everything the file does to its surroundings, oldest first. -/
structure World (κa κu : Type) where
  posted : List (task_id_t × instance_t × MessageDef κa κu)
  log : List LogLine
  remote : List RemoteCall

/-- Writes one line to `std::cout`. -/
def World.cout {κa κu : Type} (w : World κa κu) (level : LogLevel) (text : String) :
    World κa κu :=
  { w with log := w.log ++ [{ level := level, text := text }] }

/-- Modelled from the spec: `itti_alloc_new_message` belongs to the messaging
substrate, which is not part of this file. It returns a message whose header names the
origin task and the message kind; the payload is whatever the fresh memory holds. -/
def itti_alloc_new_message {κa κu : Type} (origin_task_id : task_id_t)
    (message_id : MessagesIds) (fresh : ittiMsg_t κa κu) : MessageDef κa κu :=
  { originTaskId := origin_task_id, messageId := message_id, ittiMsg := fresh }

/-- Modelled from the spec: `itti_send_msg_to_task` belongs to the messaging substrate,
which is not part of this file. It is the fire-and-forget `post_message(destination_task,
message)`: the message is queued for the destination task. -/
def itti_send_msg_to_task {κa κu : Type} (w : World κa κu) (destination : task_id_t)
    (inst : instance_t) (message_p : MessageDef κa κu) : World κa κu :=
  { w with posted := w.posted ++ [(destination, inst, message_p)] }

/-! ## Strings -/

/-- The terminator of a C string. -/
def NUL : Char := Char.ofNat 0

/-- The characters of a C string stored in `buf`: everything before the first
terminator. -/
def cstr (buf : List Char) : List Char :=
  buf.takeWhile (fun c => c != NUL)

/-- The constructor `std::string(const char *)`. -/
def std_string (buf : List Char) : String :=
  String.mk (cstr buf)

/-- The C string `s.c_str()` as `strncpy` reads it. -/
def c_str (s : String) : List Char :=
  cstr s.data

/-- The library function `strncpy(dest, src, n)`: exactly `n` characters are written at
`dest`, the characters of `src` first and terminators after them when `src` is shorter
than `n`; no terminator is written when `src` has `n` characters or more. The result is
the memory starting at `dest`; where `n` exceeds the length of `dest` the result is
longer than `dest`, the excess being the characters written past its end. -/
def strncpy (dest : List Char) (src : List Char) (n : Nat) : List Char :=
  (src.take n ++ List.replicate (n - src.length) NUL) ++ dest.drop n

/-! ## The completion handlers -/

/-- The body of the lambda that `s6a_purge_ue` hands to the client: it chooses a
severity and writes one line. -/
def s6a_purge_ue_callback {β κa κu : Type} (COMMAND_UNSUPORTED : Int) (imsiStr : String)
    (status : Status) (response : Answer β) (w : World κa κu) : World κa κu :=
  let log_level :=
    if status.ok && decide (response.error_code < COMMAND_UNSUPORTED) then LogLevel.INFO
    else LogLevel.ERROR
  w.cout log_level
    ("PurgeUE Response for IMSI: " ++ imsiStr ++ "; Status: " ++ status.error_message ++
      "; ErrorCode: " ++ toString response.error_code)

/-- The function `_s6a_handle_authentication_info_ans`. `COMMAND_UNSUPORTED` is the
protocol threshold and `fresh` is the payload of the message as allocated. `convert` is
`convert_proto_msg_to_itti_s6a_auth_info_ans`, declared in `proto_msg_to_itti_msg.h`: it
fills the kind-specific fields of the message, here the authentication vectors, from
the answer, and is taken to write no other field. The length is a `uint8_t` in the
source and reaches the handler unconverted; the cast of the error code to
`s6a_experimental_result_t` keeps its numeric value. -/
def _s6a_handle_authentication_info_ans {β κa κu : Type} (COMMAND_UNSUPORTED : Int)
    (convert : Answer β → κa → κa) (fresh : s6a_auth_info_ans_t κa)
    (imsi : String) (imsi_length : Nat) (status : Status) (response : Answer β)
    (w : World κa κu) : World κa κu :=
  let message_p : MessageDef κa κu :=
    itti_alloc_new_message task_id_t.TASK_S6A MessagesIds.S6A_AUTH_INFO_ANS
      (ittiMsg_t.s6a_auth_info_ans fresh)
  let itti_msg := { fresh with imsi := strncpy fresh.imsi (c_str imsi) imsi_length }
  let itti_msg := { itti_msg with imsi_length := imsi_length }
  let r : World κa κu × s6a_auth_info_ans_t κa :=
    if status.ok then
      if response.error_code < COMMAND_UNSUPORTED then
        let w := w.cout LogLevel.ERROR
          ("Received S6A-AUTHENTICATION_INFORMATION_ANSWER for IMSI: " ++ imsi ++
            "; Status: " ++ status.error_message ++
            "; ErrorCode: " ++ toString response.error_code)
        let itti_msg := { itti_msg with result := s6a_result_t.base s6a_base_result_t.DIAMETER_SUCCESS }
        (w, { itti_msg with auth_info := convert response itti_msg.auth_info })
      else
        (w, { itti_msg with result := s6a_result_t.experimental response.error_code })
    else
      let w := w.cout LogLevel.ERROR
        (toString status.error_code ++ ": " ++ status.error_message)
      let w := w.cout LogLevel.ERROR
        ("Received S6A-AUTHENTICATION_INFORMATION_ANSWER for IMSI: " ++ imsi ++
          "; Status: " ++ status.error_message ++
          "; ErrorCode: " ++ toString response.error_code)
      (w, { itti_msg with result := s6a_result_t.base s6a_base_result_t.DIAMETER_UNABLE_TO_COMPLY })
  itti_send_msg_to_task r.1 task_id_t.TASK_NAS_MME instance_t.INSTANCE_DEFAULT
    { message_p with ittiMsg := ittiMsg_t.s6a_auth_info_ans r.2 }

/-- The function `_s6a_handle_update_location_ans`, with the parameters of
`_s6a_handle_authentication_info_ans`; `convert` is
`convert_proto_msg_to_itti_s6a_update_location_ans` acting on the subscription data of
the message. -/
def _s6a_handle_update_location_ans {β κa κu : Type} (COMMAND_UNSUPORTED : Int)
    (convert : Answer β → κu → κu) (fresh : s6a_update_location_ans_t κu)
    (imsi : String) (imsi_length : Nat) (status : Status) (response : Answer β)
    (w : World κa κu) : World κa κu :=
  let message_p : MessageDef κa κu :=
    itti_alloc_new_message task_id_t.TASK_S6A MessagesIds.S6A_UPDATE_LOCATION_ANS
      (ittiMsg_t.s6a_update_location_ans fresh)
  let itti_msg := { fresh with imsi := strncpy fresh.imsi (c_str imsi) imsi_length }
  let itti_msg := { itti_msg with imsi_length := imsi_length }
  let r : World κa κu × s6a_update_location_ans_t κu :=
    if status.ok then
      if response.error_code < COMMAND_UNSUPORTED then
        let w := w.cout LogLevel.ERROR
          ("Received S6A-LOCATION-UPDATE_ANSWER for IMSI: " ++ imsi ++
            "; Status: " ++ status.error_message ++
            "; ErrorCode: " ++ toString response.error_code)
        let itti_msg := { itti_msg with result := s6a_result_t.base s6a_base_result_t.DIAMETER_SUCCESS }
        (w, { itti_msg with subscription_data := convert response itti_msg.subscription_data })
      else
        (w, { itti_msg with result := s6a_result_t.experimental response.error_code })
    else
      let w := w.cout LogLevel.ERROR
        (toString status.error_code ++ ": " ++ status.error_message)
      let w := w.cout LogLevel.ERROR
        (" Received S6A-LOCATION-UPDATE_ANSWER for IMSI: " ++ imsi ++
          "; Status: " ++ status.error_message ++
          "; ErrorCode: " ++ toString response.error_code)
      (w, { itti_msg with result := s6a_result_t.base s6a_base_result_t.DIAMETER_UNABLE_TO_COMPLY })
  let w := r.1.cout LogLevel.INFO ("sent itti S6A-LOCATION-UPDATE_ANSWER for IMSI: " ++ imsi)
  itti_send_msg_to_task w task_id_t.TASK_MME_APP instance_t.INSTANCE_DEFAULT
    { message_p with ittiMsg := ittiMsg_t.s6a_update_location_ans r.2 }

/-! ## The entry points -/

/-- The function `s6a_purge_ue`. `s6a_relay_enabled` is what `get_s6a_relay_enabled()`
answers; `imsi` is `none` for a null pointer. The first component is the value
returned: `none` where control reaches the closing brace of the function without a
`return` statement. -/
def s6a_purge_ue {κa κu : Type} (s6a_relay_enabled : Bool) (imsi : Option (List Char))
    (w : World κa κu) : Option Bool × World κa κu :=
  match imsi with
  | none => (some false, w)
  | some p =>
    if !s6a_relay_enabled then (some true, w)
    else
      (none,
        { w with remote := w.remote ++
            [RemoteCall.purge_ue p (Completion.purge_ue (std_string p))] })

/-- The function `s6a_authentication_info_req`. `air_p` is `none` for a null pointer,
which the function dereferences in its first statement: it then has no outcome,
`none`. Otherwise the outcome is the value returned and the world left behind. -/
def s6a_authentication_info_req {κa κu : Type} (air_p : Option s6a_auth_info_req_t)
    (w : World κa κu) : Option (Bool × World κa κu) :=
  match air_p with
  | none => none
  | some air =>
    let imsi_len := air.imsi_length
    let w := w.cout LogLevel.INFO
      ("Sending S6A-AUTHENTICATION_INFORMATION_REQUEST with IMSI: " ++ std_string air.imsi)
    let w := { w with remote := w.remote ++
      [RemoteCall.authentication_info_req air
        (Completion.authentication_info (std_string air.imsi) imsi_len)] }
    some (true, w)

/-- The function `s6a_update_location_req`, read like `s6a_authentication_info_req`. -/
def s6a_update_location_req {κa κu : Type} (ulr_p : Option s6a_update_location_req_t)
    (w : World κa κu) : Option (Bool × World κa κu) :=
  match ulr_p with
  | none => none
  | some ulr =>
    let imsi_len := ulr.imsi_length
    let w := w.cout LogLevel.DEBUG
      ("Sending S6A-UPDATE_LOCATION_REQUEST with IMSI: " ++ std_string ulr.imsi)
    let w := { w with remote := w.remote ++
      [RemoteCall.update_location_request ulr
        (Completion.update_location (std_string ulr.imsi) imsi_len)] }
    some (true, w)

/-- The body of a recorded completion lambda, run when the client delivers the outcome
of the call. The lambdas of the two answering kinds pass their captures and the outcome
to the handler of their kind. `β` stands for the answer type of the kind concerned. -/
def Completion.invoke {β κa κu : Type} (COMMAND_UNSUPORTED : Int)
    (convert_auth : Answer β → κa → κa) (convert_ula : Answer β → κu → κu)
    (fresh_auth : s6a_auth_info_ans_t κa) (fresh_ula : s6a_update_location_ans_t κu)
    (c : Completion) (status : Status) (response : Answer β) (w : World κa κu) :
    World κa κu :=
  match c with
  | Completion.purge_ue imsiStr =>
    s6a_purge_ue_callback COMMAND_UNSUPORTED imsiStr status response w
  | Completion.authentication_info imsiStr imsi_len =>
    _s6a_handle_authentication_info_ans COMMAND_UNSUPORTED convert_auth fresh_auth
      imsiStr imsi_len status response w
  | Completion.update_location imsiStr imsi_len =>
    _s6a_handle_update_location_ans COMMAND_UNSUPORTED convert_ula fresh_ula
      imsiStr imsi_len status response w

/-- A world in which nothing has happened yet. -/
def World.empty (κa κu : Type) : World κa κu :=
  { posted := [], log := [], remote := [] }

/-- The identity of the running example, fifteen digits. -/
def imsi_example : String := "001010000000001"

/-- A zeroed identity buffer of `IMSI_BCD_DIGITS_MAX + 1`, sixteen, characters. -/
def imsi_buffer_zeroed : List Char := List.replicate 16 NUL

/-! ## Inputs of the examples and views of a posted message -/

/-- The message that `_s6a_handle_authentication_info_ans` posts, given the result and
the authentication vectors it ends with. -/
def auth_info_ans_posted {κa κu : Type} (fresh : s6a_auth_info_ans_t κa) (imsi : String)
    (imsi_length : Nat) (result : s6a_result_t) (auth_info : κa) :
    task_id_t × instance_t × MessageDef κa κu :=
  (task_id_t.TASK_NAS_MME, instance_t.INSTANCE_DEFAULT,
    { originTaskId := task_id_t.TASK_S6A
      messageId := MessagesIds.S6A_AUTH_INFO_ANS
      ittiMsg := ittiMsg_t.s6a_auth_info_ans
        { imsi := strncpy fresh.imsi (c_str imsi) imsi_length
          imsi_length := imsi_length
          result := result
          auth_info := auth_info } })

/-- The message that `_s6a_handle_update_location_ans` posts, given the result and the
subscription data it ends with. -/
def update_location_ans_posted {κa κu : Type} (fresh : s6a_update_location_ans_t κu)
    (imsi : String) (imsi_length : Nat) (result : s6a_result_t) (subscription_data : κu) :
    task_id_t × instance_t × MessageDef κa κu :=
  (task_id_t.TASK_MME_APP, instance_t.INSTANCE_DEFAULT,
    { originTaskId := task_id_t.TASK_S6A
      messageId := MessagesIds.S6A_UPDATE_LOCATION_ANS
      ittiMsg := ittiMsg_t.s6a_update_location_ans
        { imsi := strncpy fresh.imsi (c_str imsi) imsi_length
          imsi_length := imsi_length
          result := result
          subscription_data := subscription_data } })

/-- A transport failure: status `UNAVAILABLE` with a message. -/
def status_unavailable : Status := { error_code := 14, error_message := "unavailable" }

/-- A transport success. -/
def status_ok : Status := { error_code := 0, error_message := "" }

/-- A freshly allocated authentication answer: zeroed identity buffer, no vectors. -/
def fresh_auth_example : s6a_auth_info_ans_t (List Nat) :=
  { imsi := imsi_buffer_zeroed, imsi_length := 0,
    result := s6a_result_t.base s6a_base_result_t.DIAMETER_UNABLE_TO_COMPLY,
    auth_info := [] }

/-- A freshly allocated location answer: zeroed identity buffer, no subscription data. -/
def fresh_ula_example : s6a_update_location_ans_t (List Nat) :=
  { imsi := imsi_buffer_zeroed, imsi_length := 0,
    result := s6a_result_t.base s6a_base_result_t.DIAMETER_UNABLE_TO_COMPLY,
    subscription_data := [] }

/-- A field converter for the examples: the fields of the message become the body of
the answer. -/
def convert_example (response : Answer (List Nat)) (_old : List Nat) : List Nat :=
  response.body

/-- The identity field of a request: the fifteen digits and their terminator. -/
def request_imsi_example : List Char := imsi_example.data ++ [NUL]

/-- The identity buffer of a posted message. -/
def posted_imsi {κa κu : Type} (p : task_id_t × instance_t × MessageDef κa κu) : List Char :=
  match p.2.2.ittiMsg with
  | ittiMsg_t.s6a_auth_info_ans m => m.imsi
  | ittiMsg_t.s6a_update_location_ans m => m.imsi

/-- The identity length recorded in a posted message. -/
def posted_imsi_length {κa κu : Type} (p : task_id_t × instance_t × MessageDef κa κu) : Nat :=
  match p.2.2.ittiMsg with
  | ittiMsg_t.s6a_auth_info_ans m => m.imsi_length
  | ittiMsg_t.s6a_update_location_ans m => m.imsi_length

/-! ## Properties of the completion handlers -/

/-- The result and the authentication vectors that the authentication handler ends
with, read off the three branches of the source. -/
theorem auth_info_ans_posted_eq {β κa κu : Type} (thr : Int) (convert : Answer β → κa → κa)
    (fresh : s6a_auth_info_ans_t κa) (imsi : String) (len : Nat) (status : Status)
    (response : Answer β) (w : World κa κu) :
    (_s6a_handle_authentication_info_ans thr convert fresh imsi len status response w).posted
      = w.posted ++ [auth_info_ans_posted fresh imsi len
          (if status.ok then
            if response.error_code < thr then
              s6a_result_t.base s6a_base_result_t.DIAMETER_SUCCESS
            else s6a_result_t.experimental response.error_code
          else s6a_result_t.base s6a_base_result_t.DIAMETER_UNABLE_TO_COMPLY)
          (if status.ok = true ∧ response.error_code < thr then
            convert response fresh.auth_info
          else fresh.auth_info)] := by
  unfold _s6a_handle_authentication_info_ans auth_info_ans_posted
  by_cases hs : status.ok = true <;> by_cases hc : response.error_code < thr <;>
    simp [hs, hc, itti_send_msg_to_task, itti_alloc_new_message, World.cout]

/-- The result and the subscription data that the location handler ends with, read off
the three branches of the source. -/
theorem update_location_ans_posted_eq {β κa κu : Type} (thr : Int)
    (convert : Answer β → κu → κu) (fresh : s6a_update_location_ans_t κu) (imsi : String)
    (len : Nat) (status : Status) (response : Answer β) (w : World κa κu) :
    (_s6a_handle_update_location_ans thr convert fresh imsi len status response w).posted
      = w.posted ++ [update_location_ans_posted fresh imsi len
          (if status.ok then
            if response.error_code < thr then
              s6a_result_t.base s6a_base_result_t.DIAMETER_SUCCESS
            else s6a_result_t.experimental response.error_code
          else s6a_result_t.base s6a_base_result_t.DIAMETER_UNABLE_TO_COMPLY)
          (if status.ok = true ∧ response.error_code < thr then
            convert response fresh.subscription_data
          else fresh.subscription_data)] := by
  unfold _s6a_handle_update_location_ans update_location_ans_posted
  by_cases hs : status.ok = true <;> by_cases hc : response.error_code < thr <;>
    simp [hs, hc, itti_send_msg_to_task, itti_alloc_new_message, World.cout]

/-- C1: whatever the outcome (any status, any protocol error code) and whatever the
captured identity and length, the authentication handler adds exactly one message to
those posted, the location handler adds exactly one, and the purge callback adds
none. -/
theorem C1_messages_posted_per_completion {βa βu βp κa κu : Type} (thr : Int)
    (convert_auth : Answer βa → κa → κa) (convert_ula : Answer βu → κu → κu)
    (fresh_auth : s6a_auth_info_ans_t κa) (fresh_ula : s6a_update_location_ans_t κu)
    (imsi : String) (len : Nat) (status : Status)
    (aia : Answer βa) (ula : Answer βu) (pua : Answer βp) (w : World κa κu) :
    (∃ m, (_s6a_handle_authentication_info_ans thr convert_auth fresh_auth imsi len
        status aia w).posted = w.posted ++ [m])
    ∧ (_s6a_handle_authentication_info_ans thr convert_auth fresh_auth imsi len
        status aia w).posted.length = w.posted.length + 1
    ∧ (∃ m, (_s6a_handle_update_location_ans thr convert_ula fresh_ula imsi len
        status ula w).posted = w.posted ++ [m])
    ∧ (_s6a_handle_update_location_ans thr convert_ula fresh_ula imsi len
        status ula w).posted.length = w.posted.length + 1
    ∧ (s6a_purge_ue_callback thr imsi status pua w).posted = w.posted := by
  refine ⟨⟨_, auth_info_ans_posted_eq thr convert_auth fresh_auth imsi len status aia w⟩,
    ?_, ⟨_, update_location_ans_posted_eq thr convert_ula fresh_ula imsi len status ula w⟩,
    ?_, ?_⟩
  · rw [auth_info_ans_posted_eq]; simp
  · rw [update_location_ans_posted_eq]; simp
  · simp [s6a_purge_ue_callback, World.cout]

/-- C2: when the transport status is not ok, both handlers post a message whose result
is Base(DIAMETER_UNABLE_TO_COMPLY) and whose kind-specific fields are those of the
fresh message, the converter not having run; the message is the same for any two
answers, whatever protocol error codes they carry. -/
theorem C2_transport_failure_unable_to_comply {βa βu κa κu : Type} (thr : Int)
    (convert_auth : Answer βa → κa → κa) (convert_ula : Answer βu → κu → κu)
    (fresh_auth : s6a_auth_info_ans_t κa) (fresh_ula : s6a_update_location_ans_t κu)
    (imsi : String) (len : Nat) (status : Status)
    (aia aia2 : Answer βa) (ula ula2 : Answer βu) (w : World κa κu)
    (hs : status.ok = false) :
    (_s6a_handle_authentication_info_ans thr convert_auth fresh_auth imsi len
        status aia w).posted
      = w.posted ++ [auth_info_ans_posted fresh_auth imsi len
          (s6a_result_t.base s6a_base_result_t.DIAMETER_UNABLE_TO_COMPLY)
          fresh_auth.auth_info]
    ∧ (_s6a_handle_update_location_ans thr convert_ula fresh_ula imsi len
        status ula w).posted
      = w.posted ++ [update_location_ans_posted fresh_ula imsi len
          (s6a_result_t.base s6a_base_result_t.DIAMETER_UNABLE_TO_COMPLY)
          fresh_ula.subscription_data]
    ∧ (_s6a_handle_authentication_info_ans thr convert_auth fresh_auth imsi len
        status aia w).posted
      = (_s6a_handle_authentication_info_ans thr convert_auth fresh_auth imsi len
        status aia2 w).posted
    ∧ (_s6a_handle_update_location_ans thr convert_ula fresh_ula imsi len
        status ula w).posted
      = (_s6a_handle_update_location_ans thr convert_ula fresh_ula imsi len
        status ula2 w).posted := by
  simp [auth_info_ans_posted_eq, update_location_ans_posted_eq, hs]

/-- C2 at a concrete input: status `UNAVAILABLE`, protocol error codes 5002 and 0. -/
theorem C2_transport_failure_unable_to_comply_witness :
    status_unavailable.ok = false
    ∧ (_s6a_handle_authentication_info_ans 3001 convert_example fresh_auth_example
        imsi_example 15 status_unavailable { error_code := 5002, body := [7] }
        (World.empty (List Nat) (List Nat))).posted
      = [auth_info_ans_posted fresh_auth_example imsi_example 15
          (s6a_result_t.base s6a_base_result_t.DIAMETER_UNABLE_TO_COMPLY) []] :=
  ⟨by decide,
    (C2_transport_failure_unable_to_comply 3001 convert_example convert_example
      fresh_auth_example fresh_ula_example imsi_example 15 status_unavailable
      { error_code := 5002, body := [7] } { error_code := 0, body := [] }
      { error_code := 5002, body := [7] } { error_code := 0, body := [] }
      (World.empty (List Nat) (List Nat)) (by decide)).1⟩

/-- C3: when the transport status is ok and the protocol error code is strictly below
COMMAND_UNSUPORTED, both handlers post a message whose result is
Base(DIAMETER_SUCCESS) and whose kind-specific fields are what the field converter
makes of the answer. -/
theorem C3_success_class_base_success {βa βu κa κu : Type} (thr : Int)
    (convert_auth : Answer βa → κa → κa) (convert_ula : Answer βu → κu → κu)
    (fresh_auth : s6a_auth_info_ans_t κa) (fresh_ula : s6a_update_location_ans_t κu)
    (imsi : String) (len : Nat) (status : Status)
    (aia : Answer βa) (ula : Answer βu) (w : World κa κu)
    (hs : status.ok = true) (ha : aia.error_code < thr) (hu : ula.error_code < thr) :
    (_s6a_handle_authentication_info_ans thr convert_auth fresh_auth imsi len
        status aia w).posted
      = w.posted ++ [auth_info_ans_posted fresh_auth imsi len
          (s6a_result_t.base s6a_base_result_t.DIAMETER_SUCCESS)
          (convert_auth aia fresh_auth.auth_info)]
    ∧ (_s6a_handle_update_location_ans thr convert_ula fresh_ula imsi len
        status ula w).posted
      = w.posted ++ [update_location_ans_posted fresh_ula imsi len
          (s6a_result_t.base s6a_base_result_t.DIAMETER_SUCCESS)
          (convert_ula ula fresh_ula.subscription_data)] := by
  simp [auth_info_ans_posted_eq, update_location_ans_posted_eq, hs, ha, hu]

/-- C3 at a concrete input: status ok and code 0 give Base(DIAMETER_SUCCESS) with the
vectors taken from the answer. -/
theorem C3_success_class_base_success_witness :
    status_ok.ok = true ∧ (0 : Int) < 3001
    ∧ (_s6a_handle_authentication_info_ans 3001 convert_example fresh_auth_example
        imsi_example 15 status_ok { error_code := 0, body := [7, 8] }
        (World.empty (List Nat) (List Nat))).posted
      = [auth_info_ans_posted fresh_auth_example imsi_example 15
          (s6a_result_t.base s6a_base_result_t.DIAMETER_SUCCESS) [7, 8]] :=
  ⟨by decide, by decide,
    (C3_success_class_base_success 3001 convert_example convert_example
      fresh_auth_example fresh_ula_example imsi_example 15 status_ok
      { error_code := 0, body := [7, 8] } { error_code := 0, body := [9] }
      (World.empty (List Nat) (List Nat)) (by decide) (by decide) (by decide)).1⟩

/-- C4: when the transport status is ok and the protocol error code is at or above
COMMAND_UNSUPORTED (the threshold itself included), both handlers post a message whose
result is Experimental(code) with the code of the answer, and whose kind-specific
fields are those of the fresh message, the converter not having run. -/
theorem C4_error_class_experimental {βa βu κa κu : Type} (thr : Int)
    (convert_auth : Answer βa → κa → κa) (convert_ula : Answer βu → κu → κu)
    (fresh_auth : s6a_auth_info_ans_t κa) (fresh_ula : s6a_update_location_ans_t κu)
    (imsi : String) (len : Nat) (status : Status)
    (aia : Answer βa) (ula : Answer βu) (w : World κa κu)
    (hs : status.ok = true) (ha : thr ≤ aia.error_code) (hu : thr ≤ ula.error_code) :
    (_s6a_handle_authentication_info_ans thr convert_auth fresh_auth imsi len
        status aia w).posted
      = w.posted ++ [auth_info_ans_posted fresh_auth imsi len
          (s6a_result_t.experimental aia.error_code) fresh_auth.auth_info]
    ∧ (_s6a_handle_update_location_ans thr convert_ula fresh_ula imsi len
        status ula w).posted
      = w.posted ++ [update_location_ans_posted fresh_ula imsi len
          (s6a_result_t.experimental ula.error_code) fresh_ula.subscription_data] := by
  have ha2 : ¬ aia.error_code < thr := not_lt.mpr ha
  have hu2 : ¬ ula.error_code < thr := not_lt.mpr hu
  simp [auth_info_ans_posted_eq, update_location_ans_posted_eq, hs, ha2, hu2]

/-- C4 at a concrete input: with the threshold at 3001, code 5002 gives
Experimental(5002) from the authentication handler and the boundary code 3001 gives
Experimental(3001) from the location handler. -/
theorem C4_error_class_experimental_witness :
    status_ok.ok = true ∧ (3001 : Int) ≤ 5002 ∧ (3001 : Int) ≤ 3001
    ∧ (_s6a_handle_authentication_info_ans 3001 convert_example fresh_auth_example
        imsi_example 15 status_ok { error_code := 5002, body := [7, 8] }
        (World.empty (List Nat) (List Nat))).posted
      = [auth_info_ans_posted fresh_auth_example imsi_example 15
          (s6a_result_t.experimental 5002) []]
    ∧ (_s6a_handle_update_location_ans 3001 convert_example fresh_ula_example
        imsi_example 15 status_ok { error_code := 3001, body := [9] }
        (World.empty (List Nat) (List Nat))).posted
      = [update_location_ans_posted fresh_ula_example imsi_example 15
          (s6a_result_t.experimental 3001) []] :=
  ⟨by decide, by decide, by decide,
    C4_error_class_experimental 3001 convert_example convert_example
      fresh_auth_example fresh_ula_example imsi_example 15 status_ok
      { error_code := 5002, body := [7, 8] } { error_code := 3001, body := [9] }
      (World.empty (List Nat) (List Nat)) (by decide) (by decide) (by decide)⟩

/-! ## The identity carried by the posted message -/

/-- Taking the longest run that satisfies a test, twice, is taking it once. -/
theorem takeWhile_takeWhile_same (p : Char → Bool) (l : List Char) :
    (l.takeWhile p).takeWhile p = l.takeWhile p := by
  induction l with
  | nil => rfl
  | cons c rest ih =>
    cases hc : p c
    · simp [List.takeWhile_cons, hc]
    · simp [List.takeWhile_cons, hc, ih]

/-- Reading a C string twice gives what reading it once gives. -/
theorem cstr_cstr (buf : List Char) : cstr (cstr buf) = cstr buf :=
  takeWhile_takeWhile_same _ buf

/-- The C string of a `std::string` built from a C string is that C string. -/
theorem c_str_std_string (buf : List Char) : c_str (std_string buf) = (std_string buf).data := by
  unfold c_str std_string
  exact cstr_cstr buf

/-- Copying a source of exactly `n` characters writes them and nothing else. -/
theorem strncpy_exact (dest src : List Char) :
    strncpy dest src src.length = src ++ dest.drop src.length := by
  simp [strncpy]

/-- The length of the memory after `strncpy`: the destination's, or `n` when `n` is
larger. -/
theorem strncpy_length (dest src : List Char) (n : Nat) :
    (strncpy dest src n).length = max n dest.length := by
  simp only [strncpy, List.length_append, List.length_take, List.length_replicate,
    List.length_drop]
  omega

/-- C5: for an identity captured from a C string, with a captured length equal to the
length of the identity and at most the capacity of the identity buffer of the message,
the authentication handler posts to TASK_NAS_MME a message of kind S6A_AUTH_INFO_ANS and
the location handler posts to TASK_MME_APP a message of kind S6A_UPDATE_LOCATION_ANS;
in both the identity buffer starts with the captured identity, unchanged, keeps its
capacity, and imsi_length is the captured length. -/
theorem C5_posted_message_kind_destination_identity {βa βu κa κu : Type} (thr : Int)
    (convert_auth : Answer βa → κa → κa) (convert_ula : Answer βu → κu → κu)
    (fresh_auth : s6a_auth_info_ans_t κa) (fresh_ula : s6a_update_location_ans_t κu)
    (buf : List Char) (len : Nat) (status : Status)
    (aia : Answer βa) (ula : Answer βu) (w : World κa κu)
    (hlen : len = (std_string buf).length)
    (hcap_auth : len ≤ fresh_auth.imsi.length) (hcap_ula : len ≤ fresh_ula.imsi.length) :
    (∃ m : s6a_auth_info_ans_t κa,
      (_s6a_handle_authentication_info_ans thr convert_auth fresh_auth (std_string buf) len
          status aia w).posted
        = w.posted ++ [(task_id_t.TASK_NAS_MME, instance_t.INSTANCE_DEFAULT,
            { originTaskId := task_id_t.TASK_S6A
              messageId := MessagesIds.S6A_AUTH_INFO_ANS
              ittiMsg := ittiMsg_t.s6a_auth_info_ans m })]
      ∧ m.imsi = (std_string buf).data ++ fresh_auth.imsi.drop len
      ∧ m.imsi.take len = (std_string buf).data
      ∧ m.imsi.length = fresh_auth.imsi.length
      ∧ m.imsi_length = len)
    ∧ (∃ m : s6a_update_location_ans_t κu,
      (_s6a_handle_update_location_ans thr convert_ula fresh_ula (std_string buf) len
          status ula w).posted
        = w.posted ++ [(task_id_t.TASK_MME_APP, instance_t.INSTANCE_DEFAULT,
            { originTaskId := task_id_t.TASK_S6A
              messageId := MessagesIds.S6A_UPDATE_LOCATION_ANS
              ittiMsg := ittiMsg_t.s6a_update_location_ans m })]
      ∧ m.imsi = (std_string buf).data ++ fresh_ula.imsi.drop len
      ∧ m.imsi.take len = (std_string buf).data
      ∧ m.imsi.length = fresh_ula.imsi.length
      ∧ m.imsi_length = len) := by
  have hdata : len = (std_string buf).data.length := hlen
  have hcopy : ∀ dest : List Char,
      strncpy dest (c_str (std_string buf)) len
        = (std_string buf).data ++ dest.drop len := by
    intro dest
    rw [c_str_std_string, hdata, strncpy_exact]
  have htake : ∀ dest : List Char,
      ((std_string buf).data ++ dest.drop len).take len = (std_string buf).data := by
    intro dest
    rw [hdata]
    exact List.take_left _ _
  have hsize : ∀ dest : List Char, len ≤ dest.length →
      ((std_string buf).data ++ dest.drop len).length = dest.length := by
    intro dest hd
    rw [List.length_append, List.length_drop, ← hdata]
    omega
  constructor
  · refine ⟨_, auth_info_ans_posted_eq thr convert_auth fresh_auth (std_string buf) len
      status aia w, ?_, ?_, ?_, ?_⟩
    · exact hcopy _
    · simp only [hcopy]; exact htake _
    · simp only [hcopy]; exact hsize _ hcap_auth
    · rfl
  · refine ⟨_, update_location_ans_posted_eq thr convert_ula fresh_ula (std_string buf) len
      status ula w, ?_, ?_, ?_, ?_⟩
    · exact hcopy _
    · simp only [hcopy]; exact htake _
    · simp only [hcopy]; exact hsize _ hcap_ula
    · rfl

/-- C5 at a concrete input: the identity 001010000000001 captured from a request, with
length 15, posted by the authentication handler to TASK_NAS_MME. -/
theorem C5_posted_message_kind_destination_identity_witness :
    15 = (std_string request_imsi_example).length
    ∧ 15 ≤ fresh_auth_example.imsi.length
    ∧ ∃ m : s6a_auth_info_ans_t (List Nat),
      (_s6a_handle_authentication_info_ans 3001 convert_example fresh_auth_example
          (std_string request_imsi_example) 15 status_ok { error_code := 0, body := [7, 8] }
          (World.empty (List Nat) (List Nat))).posted
        = [(task_id_t.TASK_NAS_MME, instance_t.INSTANCE_DEFAULT,
            { originTaskId := task_id_t.TASK_S6A
              messageId := MessagesIds.S6A_AUTH_INFO_ANS
              ittiMsg := ittiMsg_t.s6a_auth_info_ans m })]
      ∧ m.imsi.take 15 = (std_string request_imsi_example).data
      ∧ m.imsi_length = 15 := by
  have h := (C5_posted_message_kind_destination_identity 3001 convert_example convert_example
    fresh_auth_example fresh_ula_example request_imsi_example 15 status_ok
    { error_code := 0, body := [7, 8] } { error_code := 0, body := [9] }
    (World.empty (List Nat) (List Nat)) (by decide) (by decide) (by decide)).1
  obtain ⟨m, h1, -, h3, -, h5⟩ := h
  exact ⟨by decide, by decide, m, h1, h3, h5⟩

/-! ## Properties of the entry points -/

/-- C7: a purge request with a non-null identity, made while `get_s6a_relay_enabled()`
is false, returns true and leaves the world as it was: no call is made on the remote
client (and nothing is posted or logged). -/
theorem C7_purge_disabled_accepts_without_remote_call {κa κu : Type} (imsi : List Char)
    (w : World κa κu) :
    s6a_purge_ue false (some imsi) w = (some true, w)
    ∧ (s6a_purge_ue false (some imsi) w).2.remote = w.remote := by
  simp [s6a_purge_ue]

/-- C8, as the code has it: with the identity present, the two answering entry points
make exactly one remote call, whose lambda captured the identity as a string and the
length, and return true; `s6a_purge_ue` with the flag enabled makes exactly one remote
call, whose lambda captured the identity as a string, and then reaches the end of the
function without returning a value. -/
theorem C8_purge_ue_remote_path_returns_no_value {κa κu : Type} (imsi : List Char)
    (air : s6a_auth_info_req_t) (ulr : s6a_update_location_req_t) (w : World κa κu) :
    (s6a_purge_ue true (some imsi) w).1 = none
    ∧ (s6a_purge_ue true (some imsi) w).2.remote
      = w.remote ++ [RemoteCall.purge_ue imsi (Completion.purge_ue (std_string imsi))]
    ∧ (∃ w2 : World κa κu, s6a_authentication_info_req (some air) w = some (true, w2)
        ∧ w2.remote = w.remote ++ [RemoteCall.authentication_info_req air
            (Completion.authentication_info (std_string air.imsi) air.imsi_length)])
    ∧ (∃ w2 : World κa κu, s6a_update_location_req (some ulr) w = some (true, w2)
        ∧ w2.remote = w.remote ++ [RemoteCall.update_location_request ulr
            (Completion.update_location (std_string ulr.imsi) ulr.imsi_length)]) := by
  refine ⟨by simp [s6a_purge_ue], by simp [s6a_purge_ue], ?_, ?_⟩
  · exact ⟨_, rfl, by simp [World.cout]⟩
  · exact ⟨_, rfl, by simp [World.cout]⟩

/-- C6, against the claim: handed a null request, `s6a_authentication_info_req` and
`s6a_update_location_req` dereference it; neither returns false. -/
theorem C6_null_request_is_dereferenced :
    s6a_authentication_info_req none (World.empty (List Nat) (List Nat)) = none
    ∧ (s6a_authentication_info_req none (World.empty (List Nat) (List Nat))).map Prod.fst
        ≠ some false
    ∧ s6a_update_location_req none (World.empty (List Nat) (List Nat)) = none
    ∧ (s6a_update_location_req none (World.empty (List Nat) (List Nat))).map Prod.fst
        ≠ some false := by
  refine ⟨rfl, ?_, rfl, ?_⟩ <;> simp [s6a_authentication_info_req, s6a_update_location_req]

/-- C6, amended: a purge request with a null identity returns false and leaves the
world as it was (no remote call, no message), whatever the feature flag; the two
answering entry points have no rejecting path, a request that is present is always
accepted. -/
theorem C6_purge_rejects_null_identity {κa κu : Type} (s6a_relay_enabled : Bool)
    (air : s6a_auth_info_req_t) (ulr : s6a_update_location_req_t) (w : World κa κu) :
    s6a_purge_ue s6a_relay_enabled none w = (some false, w)
    ∧ (s6a_authentication_info_req (some air) w).map Prod.fst = some true
    ∧ (s6a_update_location_req (some ulr) w).map Prod.fst = some true := by
  refine ⟨rfl, rfl, rfl⟩

/-! ## Severity of the log lines -/

/-- C9, against the claim: with status ok and the threshold at 3001, the codes 0 and
2001 each make the authentication handler write one line, of severity ERROR, and make
the location handler write an ERROR line for the answer before its INFO line for the
sending. -/
theorem C9_success_logged_as_error :
    ((_s6a_handle_authentication_info_ans 3001 convert_example fresh_auth_example
        imsi_example 15 status_ok { error_code := 0, body := [7, 8] }
        (World.empty (List Nat) (List Nat))).log.map LogLine.level = [LogLevel.ERROR])
    ∧ ((_s6a_handle_authentication_info_ans 3001 convert_example fresh_auth_example
        imsi_example 15 status_ok { error_code := 2001, body := [7, 8] }
        (World.empty (List Nat) (List Nat))).log.map LogLine.level = [LogLevel.ERROR])
    ∧ ((_s6a_handle_update_location_ans 3001 convert_example fresh_ula_example
        imsi_example 15 status_ok { error_code := 0, body := [9] }
        (World.empty (List Nat) (List Nat))).log.map LogLine.level
          = [LogLevel.ERROR, LogLevel.INFO])
    ∧ ((_s6a_handle_update_location_ans 3001 convert_example fresh_ula_example
        imsi_example 15 status_ok { error_code := 2001, body := [9] }
        (World.empty (List Nat) (List Nat))).log.map LogLine.level
          = [LogLevel.ERROR, LogLevel.INFO]) := by
  refine ⟨rfl, rfl, rfl, rfl⟩

/-- C9, amended: with status ok and a protocol error code below COMMAND_UNSUPORTED, the
line each handler writes for the answer has severity ERROR whatever the code; the
authentication handler writes nothing else, the location handler then writes its INFO
line for the sending. The location handler writes that INFO line last on every path,
whatever the status and the code: after the one ERROR line of the success class, after
nothing when the code is at or above the threshold, after the two ERROR lines of a
transport failure. -/
theorem C9_success_class_line_is_error {βa βu κa κu : Type} (thr : Int)
    (convert_auth : Answer βa → κa → κa) (convert_ula : Answer βu → κu → κu)
    (fresh_auth : s6a_auth_info_ans_t κa) (fresh_ula : s6a_update_location_ans_t κu)
    (imsi : String) (len : Nat) (status : Status)
    (aia : Answer βa) (ula : Answer βu) (w : World κa κu)
    (hs : status.ok = true) (ha : aia.error_code < thr) (hu : ula.error_code < thr) :
    (_s6a_handle_authentication_info_ans thr convert_auth fresh_auth imsi len
        status aia w).log
      = w.log ++ [{ level := LogLevel.ERROR
                    text := "Received S6A-AUTHENTICATION_INFORMATION_ANSWER for IMSI: " ++
                      imsi ++ "; Status: " ++ status.error_message ++
                      "; ErrorCode: " ++ toString aia.error_code }]
    ∧ (_s6a_handle_update_location_ans thr convert_ula fresh_ula imsi len
        status ula w).log
      = w.log ++ [{ level := LogLevel.ERROR
                    text := "Received S6A-LOCATION-UPDATE_ANSWER for IMSI: " ++
                      imsi ++ "; Status: " ++ status.error_message ++
                      "; ErrorCode: " ++ toString ula.error_code },
                  { level := LogLevel.INFO
                    text := "sent itti S6A-LOCATION-UPDATE_ANSWER for IMSI: " ++ imsi }]
    ∧ ∀ (status2 : Status) (ula2 : Answer βu),
      (_s6a_handle_update_location_ans thr convert_ula fresh_ula imsi len
          status2 ula2 w).log
        = w.log
          ++ (if status2.ok then
                if ula2.error_code < thr then
                  [{ level := LogLevel.ERROR
                     text := "Received S6A-LOCATION-UPDATE_ANSWER for IMSI: " ++
                       imsi ++ "; Status: " ++ status2.error_message ++
                       "; ErrorCode: " ++ toString ula2.error_code }]
                else []
              else
                [{ level := LogLevel.ERROR
                   text := toString status2.error_code ++ ": " ++ status2.error_message },
                 { level := LogLevel.ERROR
                   text := " Received S6A-LOCATION-UPDATE_ANSWER for IMSI: " ++
                     imsi ++ "; Status: " ++ status2.error_message ++
                     "; ErrorCode: " ++ toString ula2.error_code }])
          ++ [{ level := LogLevel.INFO
                text := "sent itti S6A-LOCATION-UPDATE_ANSWER for IMSI: " ++ imsi }] := by
  refine ⟨?_, ?_, ?_⟩
  · simp [_s6a_handle_authentication_info_ans, hs, ha, itti_send_msg_to_task, World.cout]
  · simp [_s6a_handle_update_location_ans, hs, hu, itti_send_msg_to_task, World.cout]
  · intro status2 ula2
    unfold _s6a_handle_update_location_ans
    by_cases hs2 : status2.ok = true <;> by_cases hc2 : ula2.error_code < thr <;>
      simp [hs2, hc2, itti_send_msg_to_task, World.cout]

/-- C9 as amended, at a concrete input: status ok, code 2001, threshold 3001 for the
answer line of the authentication handler; status `UNAVAILABLE` for the last line of
the location handler on another path. -/
theorem C9_success_class_line_is_error_witness :
    status_ok.ok = true ∧ (2001 : Int) < 3001
    ∧ (_s6a_handle_authentication_info_ans 3001 convert_example fresh_auth_example
        imsi_example 15 status_ok { error_code := 2001, body := [7, 8] }
        (World.empty (List Nat) (List Nat))).log
      = [{ level := LogLevel.ERROR
           text := "Received S6A-AUTHENTICATION_INFORMATION_ANSWER for IMSI: " ++
             imsi_example ++ "; Status: " ++ status_ok.error_message ++
             "; ErrorCode: " ++ toString (2001 : Int) }]
    ∧ (_s6a_handle_update_location_ans 3001 convert_example fresh_ula_example
        imsi_example 15 status_unavailable { error_code := 5002, body := [9] }
        (World.empty (List Nat) (List Nat))).log.map LogLine.level
      = [LogLevel.ERROR, LogLevel.ERROR, LogLevel.INFO] := by
  have h := C9_success_class_line_is_error 3001 convert_example convert_example
    fresh_auth_example fresh_ula_example imsi_example 15 status_ok
    { error_code := 2001, body := [7, 8] } { error_code := 2001, body := [9] }
    (World.empty (List Nat) (List Nat)) (by decide) (by decide) (by decide)
  refine ⟨by decide, by decide, h.1, ?_⟩
  rw [h.2.2 status_unavailable { error_code := 5002, body := [9] }]
  rfl

/-! ## The captured length and the identity buffer -/

/-- C10, against the claim: with the sixteen-character identity buffer, the identity
001010000000001 and a captured length of 255, both handlers write 255 characters at the
buffer and record imsi_length 255; the lines they log are those they log for the
consistent length 15, so nothing about the length is reported. -/
theorem C10_length_255_overruns_identity_buffer :
    fresh_auth_example.imsi.length = 16 ∧ fresh_ula_example.imsi.length = 16
    ∧ (_s6a_handle_authentication_info_ans 3001 convert_example fresh_auth_example
        imsi_example 255 status_ok { error_code := 0, body := [7, 8] }
        (World.empty (List Nat) (List Nat))).posted.map
          (fun p => ((posted_imsi p).length, posted_imsi_length p)) = [(255, 255)]
    ∧ (_s6a_handle_update_location_ans 3001 convert_example fresh_ula_example
        imsi_example 255 status_ok { error_code := 0, body := [9] }
        (World.empty (List Nat) (List Nat))).posted.map
          (fun p => ((posted_imsi p).length, posted_imsi_length p)) = [(255, 255)]
    ∧ (_s6a_handle_authentication_info_ans 3001 convert_example fresh_auth_example
        imsi_example 255 status_ok { error_code := 0, body := [7, 8] }
        (World.empty (List Nat) (List Nat))).log
      = (_s6a_handle_authentication_info_ans 3001 convert_example fresh_auth_example
        imsi_example 15 status_ok { error_code := 0, body := [7, 8] }
        (World.empty (List Nat) (List Nat))).log
    ∧ (_s6a_handle_update_location_ans 3001 convert_example fresh_ula_example
        imsi_example 255 status_ok { error_code := 0, body := [9] }
        (World.empty (List Nat) (List Nat))).log
      = (_s6a_handle_update_location_ans 3001 convert_example fresh_ula_example
        imsi_example 15 status_ok { error_code := 0, body := [9] }
        (World.empty (List Nat) (List Nat))).log := by
  refine ⟨by decide, by decide, ?_, ?_, rfl, rfl⟩
  · rw [auth_info_ans_posted_eq]
    simp [World.empty, auth_info_ans_posted, posted_imsi, posted_imsi_length,
      strncpy_length, fresh_auth_example, imsi_buffer_zeroed]
  · rw [update_location_ans_posted_eq]
    simp [World.empty, update_location_ans_posted, posted_imsi, posted_imsi_length,
      strncpy_length, fresh_ula_example, imsi_buffer_zeroed]

/-- C10, amended: when the captured length is at most the capacity of the identity
buffer, the characters the handlers write all fall inside the buffer (the buffer keeps
its capacity) and the imsi_length they record is the captured length, hence at most the
capacity; and for any two captured lengths the handlers log the same lines, the length
being neither checked nor reported. -/
theorem C10_identity_copy_within_capacity {βa βu κa κu : Type} (thr : Int)
    (convert_auth : Answer βa → κa → κa) (convert_ula : Answer βu → κu → κu)
    (fresh_auth : s6a_auth_info_ans_t κa) (fresh_ula : s6a_update_location_ans_t κu)
    (imsi : String) (len len2 : Nat) (status : Status)
    (aia : Answer βa) (ula : Answer βu) (w : World κa κu)
    (hcap_auth : len ≤ fresh_auth.imsi.length) (hcap_ula : len ≤ fresh_ula.imsi.length) :
    (∃ m, (_s6a_handle_authentication_info_ans thr convert_auth fresh_auth imsi len
        status aia w).posted = w.posted ++ [m]
      ∧ (posted_imsi m).length = fresh_auth.imsi.length
      ∧ posted_imsi_length m = len
      ∧ posted_imsi_length m ≤ fresh_auth.imsi.length)
    ∧ (∃ m, (_s6a_handle_update_location_ans thr convert_ula fresh_ula imsi len
        status ula w).posted = w.posted ++ [m]
      ∧ (posted_imsi m).length = fresh_ula.imsi.length
      ∧ posted_imsi_length m = len
      ∧ posted_imsi_length m ≤ fresh_ula.imsi.length)
    ∧ (_s6a_handle_authentication_info_ans thr convert_auth fresh_auth imsi len
        status aia w).log
      = (_s6a_handle_authentication_info_ans thr convert_auth fresh_auth imsi len2
        status aia w).log
    ∧ (_s6a_handle_update_location_ans thr convert_ula fresh_ula imsi len
        status ula w).log
      = (_s6a_handle_update_location_ans thr convert_ula fresh_ula imsi len2
        status ula w).log := by
  refine ⟨⟨_, auth_info_ans_posted_eq thr convert_auth fresh_auth imsi len status aia w,
      ?_, rfl, hcap_auth⟩,
    ⟨_, update_location_ans_posted_eq thr convert_ula fresh_ula imsi len status ula w,
      ?_, rfl, hcap_ula⟩, ?_, ?_⟩
  · simp only [auth_info_ans_posted, posted_imsi, strncpy_length]
    omega
  · simp only [update_location_ans_posted, posted_imsi, strncpy_length]
    omega
  · unfold _s6a_handle_authentication_info_ans
    by_cases hs : status.ok = true <;> by_cases hc : aia.error_code < thr <;>
      simp [hs, hc, itti_send_msg_to_task, World.cout]
  · unfold _s6a_handle_update_location_ans
    by_cases hs : status.ok = true <;> by_cases hc : ula.error_code < thr <;>
      simp [hs, hc, itti_send_msg_to_task, World.cout]

/-- C10 as amended, at a concrete input: the identity 001010000000001 with the captured
length 15 in the sixteen-character buffer. -/
theorem C10_identity_copy_within_capacity_witness :
    15 ≤ fresh_auth_example.imsi.length
    ∧ ∃ m, (_s6a_handle_authentication_info_ans 3001 convert_example fresh_auth_example
        imsi_example 15 status_ok { error_code := 0, body := [7, 8] }
        (World.empty (List Nat) (List Nat))).posted = [m]
      ∧ (posted_imsi m).length = 16 ∧ posted_imsi_length m = 15 := by
  have h := (C10_identity_copy_within_capacity 3001 convert_example convert_example
    fresh_auth_example fresh_ula_example imsi_example 15 255 status_ok
    { error_code := 0, body := [7, 8] } { error_code := 0, body := [9] }
    (World.empty (List Nat) (List Nat)) (by decide) (by decide)).1
  obtain ⟨m, h1, h2, h3, -⟩ := h
  exact ⟨by decide, m, h1, h2, h3⟩

end S6aClientApi
